import Mathlib

/-!
Shallow embedding of the `Symbiosome` message-routing engine
(src/src/symbiosome.ts).

Modelling choices:
* The engine's mutable instance state (`listeners`, `portals`, `parent`,
  `parentOrigin`, `channelID`, own origin) is a `SymState` record; the
  registries are association lists in JS insertion order.
* Handler functions and optional callbacks are identified by `Nat` tokens;
  invoking one is recorded as an observable `Event` rather than executed,
  so delivery claims become statements about emitted event traces.
* The message payload type is a type parameter `μ` (the engine treats
  payloads as opaque).
* Host-environment services used by the engine (WHATWG URL parsing in
  `new URL(x).origin`, and `iframe.contentWindow`) are a `Platform`
  record of functions supplied to the operations that use them.
* A TypeScript `throw` is modelled by `OpResult.err = some e`; mutations
  performed before the throw persist in `OpResult.state`, exactly as in
  the source (e.g. `addPortal` appends the iframe to the DOM before the
  `contentWindow` null-check can throw).
-/

namespace Symbiosome

/-- Error taxonomy of the engine's synchronous failures. Each constructor
corresponds to one `throw Error(...)` site in the source (plus `invalidURL`
for the `TypeError` thrown by `new URL` on an unparsable string). -/
inductive SymErr where
  | duplicateOrigin
  | selfOrigin
  | notFound
  | portalNotFound
  | transportUnavailable
  | invalidURL
deriving DecidableEq, Repr

/-- Portal record: `{ frame: HTMLIFrameElement, window: Window }`, with the
frame and its content window identified by tokens. -/
structure Portal where
  frame : Nat
  window : Nat
deriving DecidableEq, Repr

/-- SymbiosomeContext: the construction-time configuration. Optional
callback fields are `Option Nat` tokens (`none` = field not provided);
`debug` records whether a debug sink was supplied. -/
structure SymContext where
  isPortal : Bool
  onPortalAdded : Option Nat
  onListenToOrigin : Option Nat
  onPushedMessage : Option Nat
  onPortalRemoved : Option Nat
  onListenerRemoved : Option Nat
  debug : Bool
deriving DecidableEq, Repr

/-- Observable effects emitted by the engine, over payload type `μ`. -/
inductive Event (μ : Type) where
  /-- a call into the optional `context.debug` sink -/
  | debugMsg (msg : String)
  /-- `broadcastChannel.postMessage({ origin, data })` -/
  | broadcastPosted (origin : String) (data : μ)
  /-- invocation of a registered listener handler with `(origin, data)` -/
  | handlerCalled (handler : Nat) (origin : String) (data : μ)
  /-- invocation of an origin-only callback (onAdded/onListen/onRemoved) -/
  | callbackFired (cb : Nat) (origin : String)
  /-- invocation of a push callback with `(origin, message)` -/
  | pushCallbackFired (cb : Nat) (origin : String) (data : μ)
  /-- `createFrame`: an invisible iframe appended to the document -/
  | frameCreated (frame : Nat)
  /-- frame.src set to the portal URL with `parent` query param attached -/
  | frameNavigated (frame : Nat) (urlOrigin : String) (parentParam : String)
  /-- `portal.window.postMessage(message, targetOrigin)` -/
  | framePosted (window : Nat) (data : μ) (targetOrigin : String)
  /-- `portal.frame.remove()` -/
  | frameRemoved (frame : Nat)
deriving DecidableEq, Repr

/-- Instance state of a `Symbiosome` object. -/
structure SymState where
  ctx : SymContext
  ownOrigin : String
  channelID : String
  listeners : List (String × Nat)
  portals : List (String × Portal)
  parentWindow : Option Nat
  parentOrigin : Option String
  nextFrame : Nat
deriving DecidableEq, Repr

/-- Result of a `URL` parse: only the canonical `origin` matters to the
engine. -/
structure URLRec where
  origin : String
deriving DecidableEq, Repr

/-- Host-environment services: `parseURL s = none` models `new URL(s)`
throwing; `contentWindow f = none` models `frame.contentWindow === null`. -/
structure Platform where
  parseURL : String → Option URLRec
  contentWindow : Nat → Option Nat

/-- Lookup in an association list, JS property-access style
(`this.listeners[origin]`): first binding for the key. -/
def lookupOrigin {α : Type} : List (String × α) → String → Option α
  | [], _ => none
  | (k, v) :: rest, o => if k = o then some v else lookupOrigin rest o

/-- Key deletion (`delete this.portals[origin]`). -/
def eraseOrigin {α : Type} (l : List (String × α)) (o : String) : List (String × α) :=
  l.filter (fun kv => decide (kv.1 ≠ o))

/-- JS nullish-coalescing `a ?? b` on optional callbacks. -/
def orDefault (a b : Option Nat) : Option Nat :=
  match a with
  | some x => some x
  | none => b

/-- Events from `this.context.debug?.( msg, ... )`. -/
def debugEvents {μ : Type} (ctx : SymContext) (msg : String) : List (Event μ) :=
  if ctx.debug then [Event.debugMsg msg] else []

/-- Events from an optional origin-only callback invocation. -/
def originCallback {μ : Type} (cb : Option Nat) (origin : String) : List (Event μ) :=
  match cb with
  | some c => [Event.callbackFired c origin]
  | none => []

/-- Events from an optional push callback invocation. -/
def pushCallback {μ : Type} (cb : Option Nat) (origin : String) (m : μ) : List (Event μ) :=
  match cb with
  | some c => [Event.pushCallbackFired c origin m]
  | none => []

/-- Result of a public operation: `err` is the thrown error if any; `state`
is the instance state after the call (mutations before a throw persist);
`events` are the effects emitted during the call. -/
structure OpResult (μ : Type) where
  err : Option SymErr
  state : SymState
  events : List (Event μ)
deriving DecidableEq, Repr

/-- Constructor (lines 54-123). `ownOrigin` is `window.location.origin`
(= `window.origin`); `parentParam` is
`new URLSearchParams(window.location.search).get("parent")`, with
`some ""` for an empty parameter value (falsy in JS). The parent window
token is `0`. Returns the initial state and the construction-time events. -/
def mkSymbiosome (μ : Type) (ctx : SymContext) (ownOrigin : String)
    (parentParam : Option String) : SymState × List (Event μ) :=
  let channelID := "symbiosome__" ++ ownOrigin
  let ev0 : List (Event μ) := debugEvents ctx "Channel ID"
  let noParent := parentParam = none ∨ parentParam = some "" ∨ parentParam = some ownOrigin
  let parentWindow : Option Nat :=
    if ctx.isPortal then (if noParent then none else some 0) else none
  let parentOrigin : Option String :=
    if ctx.isPortal then
      (match parentWindow, parentParam with
        | some _, some p => some p
        | _, _ => none)
    else none
  let evPortal : List (Event μ) :=
    if ctx.isPortal then
      debugEvents ctx "Parent origin" ++
        (if parentOrigin = none then
          debugEvents ctx "Is portal but parent is undefined"
        else [])
    else []
  let st : SymState :=
    { ctx := ctx
      ownOrigin := ownOrigin
      channelID := channelID
      listeners := []
      portals := []
      parentWindow := parentWindow
      parentOrigin := parentOrigin
      nextFrame := 0 }
  (st, ev0 ++ evPortal ++ originCallback ctx.onPortalAdded ownOrigin)

/-- Private `broadcast` (lines 145-161): posts `{origin, data}` on the
broadcast channel, then locally echoes to this instance's own listener for
that origin if one is registered. Mutates no state. -/
def broadcast {μ : Type} (s : SymState) (origin : String) (data : μ) : List (Event μ) :=
  Event.broadcastPosted origin data ::
    (match lookupOrigin s.listeners origin with
      | some h => [Event.handlerCalled h origin data]
      | none => [])

/-- Private `handleBroadcast` (lines 125-143): delivery of an inbound
local-bus message tagged with `origin`; dropped unless a listener for that
origin is registered. -/
def handleBroadcast {μ : Type} (s : SymState) (origin : String) (data : μ) : List (Event μ) :=
  debugEvents s.ctx "Incoming broadcast" ++
    (match lookupOrigin s.listeners origin with
      | none => debugEvents s.ctx "Broadcast received from unlisted origin"
      | some h => [Event.handlerCalled h origin data])

/-- Private `handlePortalMessage` (lines 163-178): inbound cross-context
message with sender origin `eventOrigin`; forwarded into the local bus iff
it equals the captured parent origin, otherwise dropped with a diagnostic. -/
def handlePortalMessage {μ : Type} (s : SymState) (eventOrigin : String) (data : μ) :
    List (Event μ) :=
  debugEvents s.ctx "Incoming message" ++
    (if s.parentOrigin = some eventOrigin then
      broadcast s eventOrigin data
    else
      debugEvents s.ctx "Incoming message not from parent")

/-- Public `listenToOrigin` (lines 202-229): normalizes the origin string,
fails if a listener for that origin exists, else registers `handlerId` and
fires `onListen ?? context.onListenToOrigin`. -/
def listenToOrigin (μ : Type) (p : Platform) (s : SymState) (origin : String)
    (handlerId : Nat) (onListen : Option Nat) : OpResult μ :=
  match p.parseURL origin with
  | none => ⟨some .invalidURL, s, []⟩
  | some u =>
    let o := u.origin
    match lookupOrigin s.listeners o with
    | some _ => ⟨some .duplicateOrigin, s, []⟩
    | none =>
      ⟨none, { s with listeners := s.listeners ++ [(o, handlerId)] },
        originCallback (orDefault onListen s.ctx.onListenToOrigin) o⟩

/-- Public `addPortal` (lines 241-280): normalizes the URL, rejects own
origin and duplicates, creates the invisible iframe, navigates it to the
URL with `parent` set to own origin, reads its content window, registers
the portal and fires `onAdded ?? context.onPortalAdded`. -/
def addPortal (μ : Type) (p : Platform) (s : SymState) (portalURL : String)
    (onAdded : Option Nat) : OpResult μ :=
  match p.parseURL portalURL with
  | none => ⟨some .invalidURL, s, []⟩
  | some u =>
    let o := u.origin
    if o = s.ownOrigin then ⟨some .selfOrigin, s, []⟩
    else
      match lookupOrigin s.portals o with
      | some _ => ⟨some .duplicateOrigin, s, []⟩
      | none =>
        let frame := s.nextFrame
        let s1 := { s with nextFrame := s.nextFrame + 1 }
        let evs : List (Event μ) :=
          [Event.frameCreated frame, Event.frameNavigated frame o s.ownOrigin]
        match p.contentWindow frame with
        | none => ⟨some .transportUnavailable, s1, evs⟩
        | some w =>
          ⟨none, { s1 with portals := s1.portals ++ [(o, ⟨frame, w⟩)] },
            evs ++ originCallback (orDefault onAdded s.ctx.onPortalAdded) o⟩

/-- Public `pushToOrigin` (lines 289-313): own origin goes straight to the
local bus; a remote origin requires a registered portal and posts the
message to its window; on success `onPush ?? context.onPushedMessage`
fires with `(origin, message)`. -/
def pushToOrigin {μ : Type} (s : SymState) (origin : String) (message : μ)
    (onPush : Option Nat) : OpResult μ :=
  if origin = s.ownOrigin then
    ⟨none, s, broadcast s origin message ++
      pushCallback (orDefault onPush s.ctx.onPushedMessage) origin message⟩
  else
    match lookupOrigin s.portals origin with
    | none => ⟨some .portalNotFound, s, []⟩
    | some portal =>
      ⟨none, s, Event.framePosted portal.window message origin ::
        pushCallback (orDefault onPush s.ctx.onPushedMessage) origin message⟩

/-- Public `removePortal` (lines 318-335): rejects own origin, requires an
existing portal, removes its frame, deletes the registry entry and fires
`onRemoved ?? context.onPortalRemoved`. -/
def removePortal (μ : Type) (s : SymState) (origin : String)
    (onRemoved : Option Nat) : OpResult μ :=
  if origin = s.ownOrigin then ⟨some .selfOrigin, s, []⟩
  else
    match lookupOrigin s.portals origin with
    | none => ⟨some .notFound, s, []⟩
    | some portal =>
      ⟨none, { s with portals := eraseOrigin s.portals origin },
        Event.frameRemoved portal.frame ::
          originCallback (orDefault onRemoved s.ctx.onPortalRemoved) origin⟩

/-- Public `removeListener` (lines 340-350): requires an existing listener
(no self-origin restriction), deletes the registry entry and fires
`onRemoved ?? context.onListenerRemoved`. -/
def removeListener (μ : Type) (s : SymState) (origin : String)
    (onRemoved : Option Nat) : OpResult μ :=
  match lookupOrigin s.listeners origin with
  | none => ⟨some .notFound, s, []⟩
  | some _ =>
    ⟨none, { s with listeners := eraseOrigin s.listeners origin },
      originCallback (orDefault onRemoved s.ctx.onListenerRemoved) origin⟩

/-- Public `getOrigins` (lines 355-362): `Object.assign({}, portals)` then
`Object.assign(origins, listeners)` then `Object.keys`: portal keys in
insertion order followed by listener keys not already present. -/
def getOrigins (s : SymState) : List String :=
  let pKeys := s.portals.map Prod.fst
  pKeys ++ (s.listeners.map Prod.fst).filter (fun k => decide (k ∉ pKeys))

/-! Helper lemmas about association-list lookup. -/

theorem lookupOrigin_append {α : Type} (l₁ l₂ : List (String × α)) (o : String) :
    lookupOrigin (l₁ ++ l₂) o =
      (match lookupOrigin l₁ o with
        | some v => some v
        | none => lookupOrigin l₂ o) := by
  induction l₁ with
  | nil => simp [lookupOrigin]
  | cons kv rest ih =>
    by_cases h : kv.1 = o
    · simp [lookupOrigin, h]
    · simp [lookupOrigin, h, ih]

theorem lookupOrigin_erase_self {α : Type} (l : List (String × α)) (o : String) :
    lookupOrigin (eraseOrigin l o) o = none := by
  induction l with
  | nil => simp [eraseOrigin, lookupOrigin]
  | cons kv rest ih =>
    by_cases h : kv.1 = o
    · simpa [eraseOrigin, h] using ih
    · simpa [eraseOrigin, lookupOrigin, h] using ih

theorem lookupOrigin_singleton {α : Type} (k : String) (v : α) :
    lookupOrigin [(k, v)] k = some v := by
  simp [lookupOrigin]

/-! Theorems settling the spec claims. -/

/-- C1: with a captured parent origin `P`, an inbound cross-context message
is forwarded into the local bus (published as `{origin, data}` and echoed to
this instance's own listener for that origin, if any) iff its sender origin
equals `P`; a message from any other origin produces only diagnostics: no
listener is invoked, nothing is published, and the handler is total (no
exception propagates). -/
theorem handlePortalMessage_parent_auth {μ : Type} (s : SymState) (P : String) (d : μ)
    (hP : s.parentOrigin = some P) :
    Event.broadcastPosted P d ∈ handlePortalMessage s P d ∧
    (∀ h, lookupOrigin s.listeners P = some h →
      Event.handlerCalled h P d ∈ handlePortalMessage s P d) ∧
    (∀ X, X ≠ P → ∀ e ∈ handlePortalMessage s X d, ∃ m, e = Event.debugMsg m) := by
  refine ⟨?_, ?_, ?_⟩
  · simp [handlePortalMessage, broadcast, hP]
  · intro h hlook
    simp [handlePortalMessage, broadcast, hP, hlook]
  · intro X hne e he
    rw [handlePortalMessage, hP] at he
    have hdiff : ¬ (some P = some X) := by
      intro hc
      exact hne (Option.some.injEq P X ▸ hc).symm
    rw [if_neg hdiff] at he
    rcases List.mem_append.mp he with h1 | h2
    · unfold debugEvents at h1
      split at h1
      · simp only [List.mem_singleton] at h1
        exact ⟨"Incoming message", h1⟩
      · simp at h1
    · unfold debugEvents at h2
      split at h2
      · simp only [List.mem_singleton] at h2
        exact ⟨"Incoming message not from parent", h2⟩
      · simp at h2

/-- C2: `pushToOrigin` at the instance's own origin always succeeds and
leaves the state unchanged; the message is published on the bus; a
registered listener for own origin receives `(ownOrigin, m)`; with no such
listener no handler is invoked; and the push callback (per-call `onPush`
or the configured default, when one exists) fires with `(ownOrigin, m)`. -/
theorem pushToOrigin_ownOrigin_delivery {μ : Type} (s : SymState) (m : μ)
    (onPush : Option Nat) :
    (pushToOrigin s s.ownOrigin m onPush).err = none ∧
    (pushToOrigin s s.ownOrigin m onPush).state = s ∧
    Event.broadcastPosted s.ownOrigin m ∈ (pushToOrigin s s.ownOrigin m onPush).events ∧
    (∀ h, lookupOrigin s.listeners s.ownOrigin = some h →
      Event.handlerCalled h s.ownOrigin m ∈ (pushToOrigin s s.ownOrigin m onPush).events) ∧
    (lookupOrigin s.listeners s.ownOrigin = none →
      ∀ h o d, Event.handlerCalled h o d ∉ (pushToOrigin s s.ownOrigin m onPush).events) ∧
    (∀ cb, orDefault onPush s.ctx.onPushedMessage = some cb →
      Event.pushCallbackFired cb s.ownOrigin m ∈ (pushToOrigin s s.ownOrigin m onPush).events) := by
  refine ⟨?_, ?_, ?_, ?_, ?_, ?_⟩
  · simp [pushToOrigin]
  · simp [pushToOrigin]
  · simp [pushToOrigin, broadcast]
  · intro h hlook
    simp [pushToOrigin, broadcast, hlook]
  · intro hnone h o d hmem
    simp only [pushToOrigin, if_pos rfl] at hmem
    rcases List.mem_append.mp hmem with h1 | h2
    · rw [broadcast, hnone] at h1
      simp at h1
    · unfold pushCallback at h2
      split at h2 <;> simp_all
  · intro cb hcb
    simp [pushToOrigin, pushCallback, hcb]

/-- C3: pushing to a remote origin with no registered portal fails with
`PortalNotFound`, emits no event at all (in particular no message is posted
to any portal window) and leaves the state, hence both registries,
unchanged. -/
theorem pushToOrigin_portalNotFound {μ : Type} (s : SymState) (O : String) (m : μ)
    (onPush : Option Nat) (hne : O ≠ s.ownOrigin)
    (hmiss : lookupOrigin s.portals O = none) :
    (pushToOrigin s O m onPush).err = some SymErr.portalNotFound ∧
    (pushToOrigin s O m onPush).state = s ∧
    (pushToOrigin s O m onPush).events = [] := by
  simp [pushToOrigin, hne, hmiss]

/-- C4: after a successful `listenToOrigin O h`, a second
`listenToOrigin O h2` fails with `DuplicateOrigin`, changes nothing, and
the first handler `h` stays registered for `O`: a subsequent local-bus
delivery for `O` still invokes `h` and never `h2`. -/
theorem listenToOrigin_duplicate {μ : Type} (p : Platform) (s : SymState) (O : String)
    (h h2 : Nat) (onL onL2 : Option Nat) (d : μ)
    (hparse : p.parseURL O = some ⟨O⟩)
    (hfresh : lookupOrigin s.listeners O = none)
    (hdiff : h2 ≠ h) :
    (listenToOrigin μ p s O h onL).err = none ∧
    (listenToOrigin μ p (listenToOrigin μ p s O h onL).state O h2 onL2).err =
      some SymErr.duplicateOrigin ∧
    (listenToOrigin μ p (listenToOrigin μ p s O h onL).state O h2 onL2).state =
      (listenToOrigin μ p s O h onL).state ∧
    lookupOrigin (listenToOrigin μ p (listenToOrigin μ p s O h onL).state O h2 onL2).state.listeners O =
      some h ∧
    Event.handlerCalled h O d ∈
      broadcast (listenToOrigin μ p (listenToOrigin μ p s O h onL).state O h2 onL2).state O d ∧
    Event.handlerCalled h2 O d ∉
      broadcast (listenToOrigin μ p (listenToOrigin μ p s O h onL).state O h2 onL2).state O d := by
  have hlook1 : lookupOrigin (s.listeners ++ [(O, h)]) O = some h := by
    rw [lookupOrigin_append, hfresh]
    exact lookupOrigin_singleton O h
  refine ⟨?_, ?_, ?_, ?_, ?_, ?_⟩
  · simp [listenToOrigin, hparse, hfresh]
  · simp [listenToOrigin, hparse, hfresh, hlook1]
  · simp [listenToOrigin, hparse, hfresh, hlook1]
  · simp [listenToOrigin, hparse, hfresh, hlook1]
  · simp [listenToOrigin, hparse, hfresh, hlook1, broadcast]
  · simp [listenToOrigin, hparse, hfresh, hlook1, broadcast, hdiff]

/-- C5: `addPortal` fails with `SelfOrigin` whenever the URL's canonical
origin equals the instance's own origin, regardless of the registries'
contents, and fails with `DuplicateOrigin` whenever a portal for that
origin is already registered; in both failure cases the state (hence the
portal registry) is unchanged and no event — in particular no success
callback — is emitted. -/
theorem addPortal_self_or_duplicate {μ : Type} (p : Platform) (s : SymState)
    (url : String) (u : URLRec) (onAdded : Option Nat)
    (hparse : p.parseURL url = some u) :
    (u.origin = s.ownOrigin →
      (addPortal μ p s url onAdded).err = some SymErr.selfOrigin ∧
      (addPortal μ p s url onAdded).state = s ∧
      (addPortal μ p s url onAdded).events = []) ∧
    (∀ pr, u.origin ≠ s.ownOrigin → lookupOrigin s.portals u.origin = some pr →
      (addPortal μ p s url onAdded).err = some SymErr.duplicateOrigin ∧
      (addPortal μ p s url onAdded).state = s ∧
      (addPortal μ p s url onAdded).events = []) := by
  constructor
  · intro hself
    simp [addPortal, hparse, hself]
  · intro pr hne hdup
    simp [addPortal, hparse, hne, hdup]

/-! Helper lemmas computing the success branches of `addPortal` and
`removePortal`, shared by the lifecycle proofs. -/

theorem addPortal_success {μ : Type} (p : Platform) (s : SymState) (url O : String)
    (onA : Option Nat) (w : Nat)
    (hparse : p.parseURL url = some ⟨O⟩)
    (hne : O ≠ s.ownOrigin)
    (hfresh : lookupOrigin s.portals O = none)
    (hw : p.contentWindow s.nextFrame = some w) :
    addPortal μ p s url onA =
      ⟨none,
        { s with nextFrame := s.nextFrame + 1,
                 portals := s.portals ++ [(O, ⟨s.nextFrame, w⟩)] },
        [Event.frameCreated s.nextFrame, Event.frameNavigated s.nextFrame O s.ownOrigin] ++
          originCallback (orDefault onA s.ctx.onPortalAdded) O⟩ := by
  simp [addPortal, hparse, hne, hfresh, hw]

theorem removePortal_success {μ : Type} (s : SymState) (O : String) (onR : Option Nat)
    (pr : Portal)
    (hne : O ≠ s.ownOrigin)
    (hlook : lookupOrigin s.portals O = some pr) :
    removePortal μ s O onR =
      ⟨none, { s with portals := eraseOrigin s.portals O },
        Event.frameRemoved pr.frame ::
          originCallback (orDefault onR s.ctx.onPortalRemoved) O⟩ := by
  simp [removePortal, hne, hlook]

/-- C6: for a remote origin `O` with no portal yet, `addPortal` then
`removePortal` then `addPortal` all succeed (the environment providing a
content window for every created frame): the removal deletes `O` from the
portal registry and removes its frame, so the second `addPortal` passes
the self-origin and duplicate checks and re-registers `O`. -/
theorem addPortal_removePortal_roundtrip {μ : Type} (p : Platform) (s : SymState)
    (url O : String) (onA onR : Option Nat)
    (hparse : p.parseURL url = some ⟨O⟩)
    (hne : O ≠ s.ownOrigin)
    (hfresh : lookupOrigin s.portals O = none)
    (hcw : ∀ f, ∃ w, p.contentWindow f = some w) :
    (addPortal μ p s url onA).err = none ∧
    (removePortal μ (addPortal μ p s url onA).state O onR).err = none ∧
    lookupOrigin (removePortal μ (addPortal μ p s url onA).state O onR).state.portals O =
      none ∧
    (∃ fr, Event.frameRemoved fr ∈
      (removePortal μ (addPortal μ p s url onA).state O onR).events) ∧
    (addPortal μ p (removePortal μ (addPortal μ p s url onA).state O onR).state url onA).err =
      none ∧
    (∃ pr, lookupOrigin
      (addPortal μ p
        (removePortal μ (addPortal μ p s url onA).state O onR).state url onA).state.portals
      O = some pr) := by
  obtain ⟨w1, hw1⟩ := hcw s.nextFrame
  have h1 := addPortal_success (μ := μ) p s url O onA w1 hparse hne hfresh hw1
  have e1 : (addPortal μ p s url onA).err = none := by rw [h1]
  have st1 : (addPortal μ p s url onA).state =
      { s with nextFrame := s.nextFrame + 1,
               portals := s.portals ++ [(O, ⟨s.nextFrame, w1⟩)] } := by rw [h1]
  have hlook1 : lookupOrigin (addPortal μ p s url onA).state.portals O =
      some ⟨s.nextFrame, w1⟩ := by
    rw [st1]
    show lookupOrigin (s.portals ++ [(O, (⟨s.nextFrame, w1⟩ : Portal))]) O = _
    rw [lookupOrigin_append, hfresh, lookupOrigin_singleton]
  have hne1 : O ≠ (addPortal μ p s url onA).state.ownOrigin := by
    rw [st1]; exact hne
  have h2 := removePortal_success (μ := μ) (addPortal μ p s url onA).state O onR
    ⟨s.nextFrame, w1⟩ hne1 hlook1
  have e2 : (removePortal μ (addPortal μ p s url onA).state O onR).err = none := by rw [h2]
  have st2 : (removePortal μ (addPortal μ p s url onA).state O onR).state =
      { (addPortal μ p s url onA).state with
          portals := eraseOrigin (addPortal μ p s url onA).state.portals O } := by rw [h2]
  have ev2 : Event.frameRemoved s.nextFrame ∈
      (removePortal μ (addPortal μ p s url onA).state O onR).events := by
    rw [h2]; exact List.mem_cons_self _ _
  have hlook2 : lookupOrigin
      (removePortal μ (addPortal μ p s url onA).state O onR).state.portals O = none := by
    rw [st2]
    exact lookupOrigin_erase_self _ O
  have hne2 : O ≠ (removePortal μ (addPortal μ p s url onA).state O onR).state.ownOrigin := by
    rw [st2]; exact hne1
  have hnf2 : (removePortal μ (addPortal μ p s url onA).state O onR).state.nextFrame =
      s.nextFrame + 1 := by
    rw [st2]
    show (addPortal μ p s url onA).state.nextFrame = s.nextFrame + 1
    rw [st1]
  obtain ⟨w2, hw2⟩ := hcw (s.nextFrame + 1)
  have hw2' : p.contentWindow
      (removePortal μ (addPortal μ p s url onA).state O onR).state.nextFrame = some w2 := by
    rw [hnf2]; exact hw2
  have h3 := addPortal_success (μ := μ) p
    (removePortal μ (addPortal μ p s url onA).state O onR).state url O onA w2
    hparse hne2 hlook2 hw2'
  have e3 : (addPortal μ p
      (removePortal μ (addPortal μ p s url onA).state O onR).state url onA).err = none := by
    rw [h3]
  refine ⟨e1, e2, hlook2, ⟨s.nextFrame, ev2⟩, e3,
    ⟨⟨(removePortal μ (addPortal μ p s url onA).state O onR).state.nextFrame, w2⟩, ?_⟩⟩
  have st3 : (addPortal μ p
      (removePortal μ (addPortal μ p s url onA).state O onR).state url onA).state =
      { (removePortal μ (addPortal μ p s url onA).state O onR).state with
          nextFrame := (removePortal μ (addPortal μ p s url onA).state O onR).state.nextFrame + 1,
          portals := (removePortal μ (addPortal μ p s url onA).state O onR).state.portals ++
            [(O, ⟨(removePortal μ (addPortal μ p s url onA).state O onR).state.nextFrame, w2⟩)] } := by
    rw [h3]
  rw [st3]
  show lookupOrigin
      ((removePortal μ (addPortal μ p s url onA).state O onR).state.portals ++
        [(O, (⟨(removePortal μ (addPortal μ p s url onA).state O onR).state.nextFrame, w2⟩ : Portal))]) O = _
  rw [lookupOrigin_append, hlook2, lookupOrigin_singleton]

/-- C7: `getOrigins` returns exactly the union of the portal-registry keys
and the listener-registry keys, each origin exactly once even when present
in both registries (given that each registry itself has no duplicate keys,
as the registration operations guarantee). -/
theorem getOrigins_union (s : SymState)
    (hl : (s.listeners.map Prod.fst).Nodup)
    (hp : (s.portals.map Prod.fst).Nodup) :
    (∀ o, o ∈ getOrigins s ↔
      (o ∈ s.portals.map Prod.fst ∨ o ∈ s.listeners.map Prod.fst)) ∧
    (getOrigins s).Nodup := by
  constructor
  · intro o
    simp only [getOrigins, List.mem_append, List.mem_filter, decide_eq_true_eq]
    constructor
    · rintro (h | ⟨h1, _⟩)
      · exact Or.inl h
      · exact Or.inr h1
    · rintro (h | h)
      · exact Or.inl h
      · by_cases hpmem : o ∈ s.portals.map Prod.fst
        · exact Or.inl hpmem
        · exact Or.inr ⟨h, hpmem⟩
  · refine List.Nodup.append hp (hl.filter _) ?_
    intro a hap haf
    have := (List.mem_filter.mp haf).2
    simp only [decide_eq_true_eq] at this
    exact this hap

/-- C8: a portal-mode instance whose `parent` startup parameter is absent
or equal to its own origin captures no parent origin (and no parent
window); construction still completes, emitting the diagnostic when a
debug sink is configured; thereafter no inbound cross-context message ever
authenticates: whatever the sender origin, `handlePortalMessage` emits
only diagnostics — no listener call and no bus publication. -/
theorem mkSymbiosome_no_trusted_parent {μ : Type} (ctx : SymContext)
    (ownOrigin : String) (parentParam : Option String)
    (hportal : ctx.isPortal = true)
    (hno : parentParam = none ∨ parentParam = some ownOrigin) :
    (mkSymbiosome μ ctx ownOrigin parentParam).1.parentOrigin = none ∧
    (mkSymbiosome μ ctx ownOrigin parentParam).1.parentWindow = none ∧
    (ctx.debug = true →
      Event.debugMsg "Is portal but parent is undefined" ∈
        (mkSymbiosome μ ctx ownOrigin parentParam).2) ∧
    (∀ X (d : μ), ∀ e ∈ handlePortalMessage (mkSymbiosome μ ctx ownOrigin parentParam).1 X d,
      ∃ m, e = Event.debugMsg m) := by
  have hnp : (parentParam = none ∨ parentParam = some "" ∨ parentParam = some ownOrigin) := by
    rcases hno with h | h
    · exact Or.inl h
    · exact Or.inr (Or.inr h)
  have hpo : (mkSymbiosome μ ctx ownOrigin parentParam).1.parentOrigin = none := by
    simp [mkSymbiosome, hportal, hnp]
  have hpw : (mkSymbiosome μ ctx ownOrigin parentParam).1.parentWindow = none := by
    simp [mkSymbiosome, hportal, hnp]
  refine ⟨hpo, hpw, ?_, ?_⟩
  · intro hdbg
    simp [mkSymbiosome, hportal, hnp, debugEvents, hdbg]
  · intro X d e he
    rw [handlePortalMessage, hpo] at he
    rw [if_neg (by simp)] at he
    rcases List.mem_append.mp he with h1 | h2
    · unfold debugEvents at h1
      split at h1
      · simp only [List.mem_singleton] at h1
        exact ⟨"Incoming message", h1⟩
      · simp at h1
    · unfold debugEvents at h2
      split at h2
      · simp only [List.mem_singleton] at h2
        exact ⟨"Incoming message not from parent", h2⟩
      · simp at h2

/-- Predicate: an event is an invocation of a success callback (an
origin-only callback or a push callback). -/
def isCallbackEvent {μ : Type} : Event μ → Bool
  | .callbackFired _ _ => true
  | .pushCallbackFired _ _ _ => true
  | _ => false

/-- Predicate: a trace invokes no per-call or configured-default callback. -/
def noCallbackEvents {μ : Type} (evs : List (Event μ)) : Prop :=
  ∀ e ∈ evs, isCallbackEvent e = false

/-- C9: whenever any public operation fails, the listener registry and the
portal registry are exactly as before the call, and no per-call or
configured-default callback for that operation is invoked. -/
theorem ops_fail_preserve_registries {μ : Type} (p : Platform) (s : SymState)
    (o url : String) (hId : Nat) (cb : Option Nat) (m : μ) :
    ((listenToOrigin μ p s o hId cb).err ≠ none →
      (listenToOrigin μ p s o hId cb).state = s ∧
      noCallbackEvents (listenToOrigin μ p s o hId cb).events) ∧
    ((addPortal μ p s url cb).err ≠ none →
      (addPortal μ p s url cb).state.listeners = s.listeners ∧
      (addPortal μ p s url cb).state.portals = s.portals ∧
      noCallbackEvents (addPortal μ p s url cb).events) ∧
    ((pushToOrigin s o m cb).err ≠ none →
      (pushToOrigin s o m cb).state = s ∧
      noCallbackEvents (pushToOrigin s o m cb).events) ∧
    ((removePortal μ s o cb).err ≠ none →
      (removePortal μ s o cb).state = s ∧
      noCallbackEvents (removePortal μ s o cb).events) ∧
    ((removeListener μ s o cb).err ≠ none →
      (removeListener μ s o cb).state = s ∧
      noCallbackEvents (removeListener μ s o cb).events) := by
  refine ⟨?_, ?_, ?_, ?_, ?_⟩
  · intro herr
    rcases hu : p.parseURL o with _ | u
    · simp [listenToOrigin, hu, noCallbackEvents]
    · rcases hl : lookupOrigin s.listeners u.origin with _ | h
      · exact absurd (by simp [listenToOrigin, hu, hl]) herr
      · simp [listenToOrigin, hu, hl, noCallbackEvents]
  · intro herr
    rcases hu : p.parseURL url with _ | u
    · simp [addPortal, hu, noCallbackEvents]
    · by_cases hself : u.origin = s.ownOrigin
      · simp [addPortal, hu, hself, noCallbackEvents]
      · rcases hl : lookupOrigin s.portals u.origin with _ | pr
        · rcases hw : p.contentWindow s.nextFrame with _ | w
          · simp [addPortal, hu, hself, hl, hw, noCallbackEvents, isCallbackEvent]
          · exact absurd (by simp [addPortal, hu, hself, hl, hw]) herr
        · simp [addPortal, hu, hself, hl, noCallbackEvents]
  · intro herr
    by_cases hself : o = s.ownOrigin
    · exact absurd (by simp [pushToOrigin, hself]) herr
    · rcases hl : lookupOrigin s.portals o with _ | pr
      · simp [pushToOrigin, hself, hl, noCallbackEvents]
      · exact absurd (by simp [pushToOrigin, hself, hl]) herr
  · intro herr
    by_cases hself : o = s.ownOrigin
    · simp [removePortal, hself, noCallbackEvents]
    · rcases hl : lookupOrigin s.portals o with _ | pr
      · simp [removePortal, hself, hl, noCallbackEvents]
      · exact absurd (by simp [removePortal, hself, hl]) herr
  · intro herr
    rcases hl : lookupOrigin s.listeners o with _ | h
    · simp [removeListener, hl, noCallbackEvents]
    · exact absurd (by simp [removeListener, hl]) herr

/-- C10: `removeListener` applies no self-origin restriction, unlike
`removePortal`: for every origin `O`, including the instance's own,
removal succeeds exactly when a listener for `O` is registered (deleting
it and firing the removal callback) and fails with `NotFound` otherwise,
while `removePortal` at the own origin always fails with `SelfOrigin`. -/
theorem removeListener_no_self_restriction {μ : Type} (s : SymState) (O : String)
    (onR : Option Nat) :
    (∀ h, lookupOrigin s.listeners O = some h →
      (removeListener μ s O onR).err = none ∧
      (removeListener μ s O onR).state.listeners = eraseOrigin s.listeners O ∧
      lookupOrigin (removeListener μ s O onR).state.listeners O = none ∧
      (∀ c, orDefault onR s.ctx.onListenerRemoved = some c →
        Event.callbackFired c O ∈ (removeListener μ s O onR).events)) ∧
    (lookupOrigin s.listeners O = none →
      (removeListener μ s O onR).err = some SymErr.notFound ∧
      (removeListener μ s O onR).state = s) ∧
    (removePortal μ s s.ownOrigin onR).err = some SymErr.selfOrigin := by
  refine ⟨?_, ?_, ?_⟩
  · intro h hlook
    refine ⟨by simp [removeListener, hlook], by simp [removeListener, hlook], ?_, ?_⟩
    · simp only [removeListener, hlook]
      exact lookupOrigin_erase_self s.listeners O
    · intro c hc
      simp [removeListener, hlook, originCallback, hc]
  · intro hnone
    simp [removeListener, hnone]
  · simp [removePortal]

/-! Concrete instances used by the witness theorems. -/

/-- Platform whose URL parse treats its input as already canonical and
whose frames always expose a content window. -/
def demoPlatform : Platform := ⟨fun s => some ⟨s⟩, fun f => some f⟩

/-- Configuration with every optional callback and the debug sink set. -/
def demoCtx : SymContext :=
  ⟨true, some 100, some 101, some 102, some 103, some 104, true⟩

/-- Portal-mode state with parent origin `a`, a listener for `a`, no
portals. -/
def sParentA : SymState :=
  ⟨demoCtx, "o", "symbiosome__o", [("a", 7)], [], some 0, some "a", 0⟩

/-- State with a listener registered for its own origin `o`. -/
def sOwnListener : SymState :=
  ⟨demoCtx, "o", "symbiosome__o", [("o", 7)], [], none, none, 0⟩

/-- State with a portal for `a` and a listener for `b`. -/
def sPortalAListenerB : SymState :=
  ⟨demoCtx, "o", "symbiosome__o", [("b", 7)], [("a", ⟨0, 0⟩)], none, none, 1⟩

/-- State with a portal registered for `b` and no listeners. -/
def sPortalB : SymState :=
  ⟨demoCtx, "o", "symbiosome__o", [], [("b", ⟨0, 0⟩)], none, none, 1⟩

/-- First registration of a listener for `a`. -/
def rListen1 : OpResult Nat := listenToOrigin Nat demoPlatform sPortalB "a" 7 none

/-- Second, duplicate registration attempt for `a`. -/
def rListen2 : OpResult Nat := listenToOrigin Nat demoPlatform rListen1.state "a" 8 none

/-- Lifecycle round trip: first portal registration for `b`. -/
def rAdd1 : OpResult Nat := addPortal Nat demoPlatform sParentA "b" none

/-- Lifecycle round trip: removal of the portal for `b`. -/
def rRem1 : OpResult Nat := removePortal Nat rAdd1.state "b" none

/-- Lifecycle round trip: re-registration of the portal for `b`. -/
def rAdd2 : OpResult Nat := addPortal Nat demoPlatform rRem1.state "b" none

/-- Witness for C1 at a concrete portal-mode instance. -/
theorem handlePortalMessage_parent_auth_witness :
    Event.broadcastPosted "a" (5 : Nat) ∈ handlePortalMessage sParentA "a" 5 ∧
    Event.handlerCalled 7 "a" (5 : Nat) ∈ handlePortalMessage sParentA "a" 5 ∧
    (∃ m, (Event.debugMsg "Incoming message" : Event Nat) = Event.debugMsg m) :=
  ⟨(handlePortalMessage_parent_auth sParentA "a" (5 : Nat) rfl).1,
   (handlePortalMessage_parent_auth sParentA "a" (5 : Nat) rfl).2.1 7 (by decide),
   (handlePortalMessage_parent_auth sParentA "a" (5 : Nat) rfl).2.2 "x" (by decide)
     (Event.debugMsg "Incoming message") (by decide)⟩

/-- Witness for C2 at a concrete state with a listener for own origin. -/
theorem pushToOrigin_ownOrigin_delivery_witness :
    (pushToOrigin sOwnListener "o" (3 : Nat) none).err = none ∧
    Event.handlerCalled 7 "o" (3 : Nat) ∈ (pushToOrigin sOwnListener "o" (3 : Nat) none).events ∧
    Event.pushCallbackFired 102 "o" (3 : Nat) ∈
      (pushToOrigin sOwnListener "o" (3 : Nat) none).events :=
  ⟨(pushToOrigin_ownOrigin_delivery sOwnListener (3 : Nat) none).1,
   (pushToOrigin_ownOrigin_delivery sOwnListener (3 : Nat) none).2.2.2.1 7 (by decide),
   (pushToOrigin_ownOrigin_delivery sOwnListener (3 : Nat) none).2.2.2.2.2 102 (by decide)⟩

/-- Witness for C3 at a concrete unportaled remote origin. -/
theorem pushToOrigin_portalNotFound_witness :
    (pushToOrigin sParentA "b" (2 : Nat) none).err = some SymErr.portalNotFound ∧
    (pushToOrigin sParentA "b" (2 : Nat) none).state = sParentA ∧
    (pushToOrigin sParentA "b" (2 : Nat) none).events = [] :=
  pushToOrigin_portalNotFound sParentA "b" (2 : Nat) none (by decide) (by decide)

/-- Witness for C4 at a concrete duplicate registration. -/
theorem listenToOrigin_duplicate_witness :
    rListen1.err = none ∧
    rListen2.err = some SymErr.duplicateOrigin ∧
    lookupOrigin rListen2.state.listeners "a" = some 7 ∧
    Event.handlerCalled 7 "a" (5 : Nat) ∈ broadcast rListen2.state "a" 5 ∧
    Event.handlerCalled 8 "a" (5 : Nat) ∉ broadcast rListen2.state "a" 5 := by
  have T := listenToOrigin_duplicate demoPlatform sPortalB "a" 7 8 none none (5 : Nat)
    rfl (by decide) (by decide)
  exact ⟨T.1, T.2.1, T.2.2.2.1, T.2.2.2.2.1, T.2.2.2.2.2⟩

/-- Witness for C5 at a concrete self-origin URL and a concrete duplicate
portal. -/
theorem addPortal_self_or_duplicate_witness :
    (addPortal Nat demoPlatform sParentA "o" none).err = some SymErr.selfOrigin ∧
    (addPortal Nat demoPlatform sPortalB "b" none).err = some SymErr.duplicateOrigin := by
  have T1 := addPortal_self_or_duplicate (μ := Nat) demoPlatform sParentA "o" ⟨"o"⟩ none rfl
  have T2 := addPortal_self_or_duplicate (μ := Nat) demoPlatform sPortalB "b" ⟨"b"⟩ none rfl
  exact ⟨(T1.1 rfl).1, (T2.2 ⟨0, 0⟩ (by decide) (by decide)).1⟩

/-- Witness for C6 at a concrete add/remove/add lifecycle for origin `b`. -/
theorem addPortal_removePortal_roundtrip_witness :
    rAdd1.err = none ∧ rRem1.err = none ∧
    lookupOrigin rRem1.state.portals "b" = none ∧
    rAdd2.err = none ∧
    (∃ pr, lookupOrigin rAdd2.state.portals "b" = some pr) := by
  have T := addPortal_removePortal_roundtrip (μ := Nat) demoPlatform sParentA "b" "b"
    none none rfl (by decide) rfl (fun f => ⟨f, rfl⟩)
  exact ⟨T.1, T.2.1, T.2.2.1, T.2.2.2.2.1, T.2.2.2.2.2⟩

/-- Witness for C7 at the portal-A/listener-B scenario, including the
concrete results before and after removing portal `a`. -/
theorem getOrigins_union_witness :
    ("a" ∈ getOrigins sPortalAListenerB ↔
      ("a" ∈ sPortalAListenerB.portals.map Prod.fst ∨
        "a" ∈ sPortalAListenerB.listeners.map Prod.fst)) ∧
    (getOrigins sPortalAListenerB).Nodup ∧
    getOrigins sPortalAListenerB = ["a", "b"] ∧
    getOrigins (removePortal Nat sPortalAListenerB "a" none).state = ["b"] := by
  have T := getOrigins_union sPortalAListenerB (by decide) (by decide)
  exact ⟨T.1 "a", T.2, by decide, by decide⟩

/-- Witness for C8 at a concrete portal-mode construction with no `parent`
parameter. -/
theorem mkSymbiosome_no_trusted_parent_witness :
    (mkSymbiosome Nat demoCtx "o" none).1.parentOrigin = none ∧
    Event.debugMsg "Is portal but parent is undefined" ∈ (mkSymbiosome Nat demoCtx "o" none).2 ∧
    (∃ m, (Event.debugMsg "Incoming message not from parent" : Event Nat) = Event.debugMsg m) := by
  have T := mkSymbiosome_no_trusted_parent (μ := Nat) demoCtx "o" none rfl (Or.inl rfl)
  exact ⟨T.1, T.2.2.1 rfl,
    T.2.2.2 "a" (5 : Nat) (Event.debugMsg "Incoming message not from parent") (by decide)⟩

/-- Witness for C9 at concrete failing calls of all five operations. -/
theorem ops_fail_preserve_registries_witness :
    (listenToOrigin Nat demoPlatform sParentA "a" 9 none).state = sParentA ∧
    (addPortal Nat demoPlatform sParentA "o" none).state.portals = sParentA.portals ∧
    (pushToOrigin sParentA "a" (1 : Nat) none).state = sParentA ∧
    (removePortal Nat sParentA "a" none).state = sParentA ∧
    (removeListener Nat sParentA "z" none).state = sParentA := by
  have T1 := ops_fail_preserve_registries demoPlatform sParentA "a" "o" 9 none (1 : Nat)
  have T2 := ops_fail_preserve_registries demoPlatform sParentA "z" "o" 9 none (1 : Nat)
  exact ⟨(T1.1 (by decide)).1, (T1.2.1 (by decide)).2.1,
    (T1.2.2.1 (by decide)).1, (T1.2.2.2.1 (by decide)).1, (T2.2.2.2.2 (by decide)).1⟩

/-- Witness for C10: removing the listener for the instance's own origin
succeeds, while `removePortal` at the own origin fails with `SelfOrigin`,
and removing an unregistered listener fails with `NotFound`. -/
theorem removeListener_no_self_restriction_witness :
    (removeListener Nat sOwnListener "o" none).err = none ∧
    lookupOrigin (removeListener Nat sOwnListener "o" none).state.listeners "o" = none ∧
    (removePortal Nat sOwnListener "o" none).err = some SymErr.selfOrigin ∧
    (removeListener Nat sOwnListener "z" none).err = some SymErr.notFound := by
  have T := removeListener_no_self_restriction (μ := Nat) sOwnListener "o" none
  have T2 := removeListener_no_self_restriction (μ := Nat) sOwnListener "z" none
  exact ⟨(T.1 7 (by decide)).1, (T.1 7 (by decide)).2.2.1, T.2.2, (T2.2.1 (by decide)).1⟩

end Symbiosome
